import Mathlib

/-!
Verification development for the resilience core of the EssayAgents repository
(`src/agents/jsxcreate/jsx_content_analyzer.py` and its near-duplicate copy in
`src/agents/jsxcreate/jsx_generator.py`).

The Python classes `CircuitBreaker`, `AsyncWorkQueue`, `WorkItem` and
`BaseAsyncAgent.execute_with_resilience` are shallowly embedded as pure Lean
functions.  Wall-clock readings (`time.monotonic()`) are passed in explicitly as
rational numbers; float arithmetic is modelled by exact rational arithmetic;
Python exceptions are modelled by an explicit exception type threaded through
`Except` / explicit outcome types.
-/

namespace EssayAgents

/-- The three breaker states; mirrors the Python `CircuitBreakerState` enum
(the two source copies differ only in the casing of the enum *values*, which
are never branched on). -/
inductive CircuitBreakerState
  | closed
  | opened
  | halfOpen
deriving DecidableEq

/-- Embedding of the Python `CircuitBreaker` object state.
`state_var`, `failure_count`, `success_count`, `last_failure_time` are the
instance attributes `_state`, `_failure_count`, `_success_count`,
`_last_failure_time`; the first three fields are the constructor configuration.
`shadow_failure_count` models the *separate* plain instance attribute
`failure_count` that `JSXContentAnalyzer.reset_system_state` creates by the
assignment `self.circuit_breaker.failure_count = 0`: it is distinct from the
backing attribute `_failure_count` and is read by no method of the class. -/
structure CircuitBreaker where
  failure_threshold : ℤ
  recovery_timeout : ℚ
  half_open_attempts : ℤ
  state_var : CircuitBreakerState
  failure_count : ℤ
  success_count : ℤ
  last_failure_time : Option ℚ
  shadow_failure_count : Option ℤ
deriving DecidableEq

/-- The `CircuitBreaker.__init__` constructor: fresh breaker in CLOSED with
zeroed counters and no recorded failure time. -/
def CircuitBreaker.init (ft : ℤ) (rt : ℚ) (hoa : ℤ) : CircuitBreaker :=
  ⟨ft, rt, hoa, .closed, 0, 0, none, none⟩

/-- The `state` property getter.  Reading it at wall-clock `now` returns the
observed state and the (possibly mutated) breaker: when the stored state is
OPEN, `_last_failure_time` is truthy (in Python `some 0` is falsy, hence the
`t ≠ 0` conjunct) and `now - _last_failure_time > recovery_timeout`, the read
itself performs the OPEN → HALF_OPEN transition and zeroes `_success_count`. -/
def CircuitBreaker.state (b : CircuitBreaker) (now : ℚ) :
    CircuitBreakerState × CircuitBreaker :=
  if b.state_var = .opened then
    match b.last_failure_time with
    | some t =>
      if t ≠ 0 ∧ b.recovery_timeout < now - t then
        (.halfOpen, { b with state_var := .halfOpen, success_count := 0 })
      else (.opened, b)
    | none => (.opened, b)
  else (b.state_var, b)

/-- `CircuitBreaker.record_failure` called at wall-clock `now`: increments
`_failure_count`, stamps `_last_failure_time`, then reads `state` (both reads
in the Python body happen at effectively the same instant and the getter is
idempotent at a fixed clock, so a single read is taken): from HALF_OPEN any
failure reopens and pins `_failure_count` to the threshold; from CLOSED the
breaker opens once `_failure_count >= failure_threshold`. -/
def CircuitBreaker.record_failure (b : CircuitBreaker) (now : ℚ) : CircuitBreaker :=
  let b1 : CircuitBreaker :=
    { b with failure_count := b.failure_count + 1, last_failure_time := some now }
  let p := b1.state now
  if p.1 = .halfOpen then
    { p.2 with state_var := .opened, failure_count := p.2.failure_threshold }
  else if p.2.failure_threshold ≤ p.2.failure_count ∧ p.1 = .closed then
    { p.2 with state_var := .opened }
  else p.2

/-- `CircuitBreaker.record_success` called at wall-clock `now`: in HALF_OPEN
increments `_success_count` and closes (resetting both counters) once
`_success_count >= half_open_attempts`; in CLOSED resets both counters. -/
def CircuitBreaker.record_success (b : CircuitBreaker) (now : ℚ) : CircuitBreaker :=
  let p := b.state now
  if p.1 = .halfOpen then
    let b1 : CircuitBreaker := { p.2 with success_count := p.2.success_count + 1 }
    if b1.half_open_attempts ≤ b1.success_count then
      { b1 with state_var := .closed, failure_count := 0, success_count := 0 }
    else b1
  else if p.1 = .closed then
    { p.2 with failure_count := 0, success_count := 0 }
  else p.2

/-- A sequence of consecutive `record_failure` calls, one wall-clock reading
per call. -/
def CircuitBreaker.record_failures (b : CircuitBreaker) (times : List ℚ) : CircuitBreaker :=
  times.foldl CircuitBreaker.record_failure b

/-- Outcome of awaiting the *nested* coroutine that a work item's callable may
return (the defensive double-unwrap in `AsyncWorkQueue._worker`): it resolves
to a value or raises, after running for `d` seconds. -/
inductive NestedOutcome
  | value (d : ℚ) (v : String)
  | raises (d : ℚ) (e : String)
deriving DecidableEq

/-- What a work item's callable does when invoked with the item's args/kwargs:
it returns a plain value, raises an exception (rendered by `str(e)`), or
returns a coroutine object that must be awaited once more. -/
inductive ItemOutcome
  | value (v : String)
  | raises (e : String)
  | nested (inner : NestedOutcome)
deriving DecidableEq

/-- The `WorkItem` dataclass.  `task_func`, `args` and `kwargs` are opaque to
the queue; their observable behaviour is modelled by `duration` (how long the
call runs before settling) and `outcome`. -/
structure WorkItem where
  id : String
  priority : ℤ
  max_retries : ℤ
  current_retry : ℤ
  timeout : ℚ
  created_at : ℚ
  duration : ℚ
  outcome : ItemOutcome
deriving DecidableEq

/-- The status tag of a stored result: the code writes exactly the strings
"success", "timeout" and "error". -/
inductive RStatus
  | success
  | timeout
  | error
deriving DecidableEq

/-- One entry of `AsyncWorkQueue._results`: a dict with a `status` key and,
depending on the tag, a `result` key or an `error` key. -/
structure ResultEntry where
  status : RStatus
  result : Option String
  error_msg : Option String
deriving DecidableEq

/-- Python-dict assignment `d[k] = v` on an association list: replaces the
entry of an existing key, else appends. -/
def dict_set : List (String × ResultEntry) → String → ResultEntry → List (String × ResultEntry)
  | [], k, v => [(k, v)]
  | p :: rest, k, v => if p.1 = k then (k, v) :: rest else p :: dict_set rest k v

/-- Python-dict lookup `d.get(k)` on an association list. -/
def dict_get : List (String × ResultEntry) → String → Option ResultEntry
  | [], _ => none
  | p :: rest, k => if p.1 = k then some p.2 else dict_get rest k

/-- The per-item body of `AsyncWorkQueue._worker` once an item has been pulled
from the queue: run the callable under `asyncio.wait_for(_, item.timeout)`;
a `TimeoutError` of that wait is stored with status "timeout"; any other
exception with status "error"; a result that is itself a coroutine is awaited
once more under the same `item.timeout`, a failure of that second await being
stored with status "error" (the nested `try` wraps it in
"Nested coroutine execution failed"); otherwise the value is stored with
status "success".  The function is total: no exception ever escapes the
per-item `try/except` blocks into the worker loop. -/
def run_item (item : WorkItem) : ResultEntry :=
  if item.timeout < item.duration then
    ⟨.timeout, none, some ("Task " ++ item.id ++ " timed out")⟩
  else
    match item.outcome with
    | .value v => ⟨.success, some v, none⟩
    | .raises e => ⟨.error, none, some e⟩
    | .nested (.value d v) =>
      if item.timeout < d then
        ⟨.error, none, some "Nested coroutine execution failed: TimeoutError"⟩
      else ⟨.success, some v, none⟩
    | .nested (.raises d e) =>
      if item.timeout < d then
        ⟨.error, none, some "Nested coroutine execution failed: TimeoutError"⟩
      else ⟨.error, none, some ("Nested coroutine execution failed: " ++ e)⟩

/-- A worker finishing `item` writes its tagged outcome into the result table
under the item's id (`self._results[item.id] = ...`). -/
def worker_process_item (rs : List (String × ResultEntry)) (item : WorkItem) :
    List (String × ResultEntry) :=
  dict_set rs item.id (run_item item)

/-- The mutable state of an `AsyncWorkQueue`: the contents of the underlying
`asyncio.PriorityQueue` (as a list; heap order is irrelevant to the claims
below), its `maxsize`, the `_running` flag and the result table. -/
structure AsyncWorkQueue where
  queue_items : List WorkItem
  max_queue_size : ℕ
  running : Bool
  results : List (String × ResultEntry)
deriving DecidableEq

/-- Outcome of `await queue.put(item)` on an `asyncio.PriorityQueue`: when the
queue is bounded and full, the coroutine *suspends* until a consumer frees a
slot — `asyncio.Queue.put` never raises `QueueFull` (only `put_nowait` does);
otherwise the item is stored and the coroutine completes. -/
inductive PutOutcome
  | completed (q : List WorkItem)
  | suspended
deriving DecidableEq

/-- `asyncio.PriorityQueue.put` semantics (`maxsize <= 0` means unbounded,
matching the constructor's `max_queue_size if max_queue_size > 0 else 0`). -/
def priority_queue_put (maxsize : ℕ) (q : List WorkItem) (item : WorkItem) : PutOutcome :=
  if 0 < maxsize ∧ maxsize ≤ q.length then .suspended
  else .completed (q ++ [item])

/-- Observable outcome of one call to `AsyncWorkQueue.enqueue_work`: either the
coroutine returns a boolean with the queue in a new state, or it blocks
(suspends awaiting queue capacity, the caller not running). -/
inductive EnqueueOutcome
  | returns (b : Bool) (st : AsyncWorkQueue)
  | blocked (st : AsyncWorkQueue)
deriving DecidableEq

/-- `AsyncWorkQueue.enqueue_work`: auto-starts the worker pool when not
running, then `await self._queue.put(item)` and return `True`.  The
`except asyncio.QueueFull: return False` handler is dead code, because the
awaited `put` never raises `QueueFull` — at capacity it suspends instead, so
this embedding can never produce `.returns false`. -/
def enqueue_work (st : AsyncWorkQueue) (item : WorkItem) : EnqueueOutcome :=
  let st1 := if st.running then st else { st with running := true }
  match priority_queue_put st1.max_queue_size st1.queue_items item with
  | .suspended => .blocked st1
  | .completed q => .returns true { st1 with queue_items := q }

/-- The Python exceptions the executor path distinguishes. -/
inductive PyExc
  | timeoutError
  | recursionError
  | cbOpenError
  | otherError (msg : String)
  | genericExhaustion (taskId : String)
  | attributeError
deriving DecidableEq

/-- What the underlying operation does on one invocation: settle to a value or
raise. -/
inductive OpOutcome
  | value (v : String)
  | raises (e : PyExc)
deriving DecidableEq

/-- One invocation's behaviour: how long it runs before settling, and how it
settles.  Under `asyncio.wait_for(_, T)` the invocation times out when
`duration > T` (the waiter stops waiting; the cancelled inner coroutine's
`except Exception` does not run, so the breaker records nothing). -/
structure AttemptBehavior where
  duration : ℚ
  outcome : OpOutcome
deriving DecidableEq

/-- The `task_func` argument of `execute_with_resilience`: either an already
created pending computation (a coroutine object or `asyncio.Future`, both
handled identically by the two leading `if` blocks), or a callable (coroutine
function or plain function) whose behaviour may differ per invocation. -/
inductive TaskInput
  | pending (beh : AttemptBehavior)
  | callable (op : ℕ → AttemptBehavior)

/-- The `execution_stats` counter dict of `BaseAsyncAgent`. -/
structure ExecutionStats where
  total_attempts : ℤ
  successful_executions : ℤ
  fallback_used : ℤ
  circuit_breaker_triggered : ℤ
  timeout_occurred : ℤ
deriving DecidableEq

/-- The `BaseAsyncAgent` instance state touched by `execute_with_resilience`
and `reset_system_state`: its circuit breaker, the `fallback_to_sync` flag and
the `execution_stats` counters. -/
structure ExecState where
  breaker : CircuitBreaker
  fallback_to_sync : Bool
  execution_stats : ExecutionStats
deriving DecidableEq

/-- The runtime environment read by the recursion gate: the measured
`len(inspect.stack())`, `sys.getrecursionlimit()` and the agent's
`_recursion_check_buffer`. -/
structure ExecEnv where
  stack_depth : ℤ
  recursion_limit : ℤ
  recursion_check_buffer : ℤ
deriving DecidableEq

/-- The retry configuration arguments of `execute_with_resilience`. -/
structure ExecConfig where
  max_retries : ℤ
  initial_timeout : ℚ
  backoff_factor : ℚ
deriving DecidableEq

/-- Result of one attempt: the outcome of
`asyncio.wait_for(circuit_breaker.execute(task_func, ...), current_timeout)`,
the breaker afterwards, whether the operation was actually invoked, and the
elapsed wall-clock time. -/
structure AttemptResult where
  res : Except PyExc String
  breaker : CircuitBreaker
  opCalled : Bool
  elapsed : ℚ

/-- `CircuitBreaker.execute` under an `asyncio.wait_for` with budget `T`:
the `state` read happens synchronously before any await (so its lazy
OPEN → HALF_OPEN side effect survives even a later timeout); an OPEN state
rejects with `CircuitBreakerOpenError` without invoking the operation; an
invocation that outlives `T` is cancelled by the waiter (`TimeoutError`,
breaker counters untouched); a completed invocation records success, a raising
one records failure and re-raises. -/
def circuit_breaker_execute (b : CircuitBreaker) (now T : ℚ) (beh : AttemptBehavior) :
    AttemptResult :=
  let p := b.state now
  if p.1 = .opened then ⟨.error .cbOpenError, p.2, false, 0⟩
  else if T < beh.duration then ⟨.error .timeoutError, p.2, true, T⟩
  else
    match beh.outcome with
    | .value v => ⟨.ok v, p.2.record_success (now + beh.duration), true, beh.duration⟩
    | .raises e => ⟨.error e, p.2.record_failure (now + beh.duration), true, beh.duration⟩

/-- The executor's per-exception bookkeeping in the retry loop's `except`
arms: a timeout bumps `timeout_occurred`, a breaker rejection bumps
`circuit_breaker_triggered`, everything else only sets `last_exception`. -/
def ExecState.note_exc (st : ExecState) (e : PyExc) : ExecState :=
  match e with
  | .timeoutError =>
    { st with execution_stats :=
        { st.execution_stats with
            timeout_occurred := st.execution_stats.timeout_occurred + 1 } }
  | .cbOpenError =>
    { st with execution_stats :=
        { st.execution_stats with
            circuit_breaker_triggered := st.execution_stats.circuit_breaker_triggered + 1 } }
  | _ => st

deriving instance DecidableEq for Except

/-- Everything observable about one `execute_with_resilience` call: the value
returned or exception raised, how many loop iterations (attempts) ran, how
often the underlying operation was invoked, the backoff sleeps in order, the
per-attempt timeouts in order, the exceptions observed per failed attempt in
order, and the final agent state. -/
structure RunTrace where
  result : Except PyExc String
  iterations : ℕ
  opCalls : ℕ
  sleeps : List ℚ
  timeouts : List ℚ
  excs : List PyExc
  state : ExecState
deriving DecidableEq

/-- The retry loop of `execute_with_resilience` (`while current_retry <=
max_retries`), with `fuel` the number of iterations left, `k` the current
`current_retry`, `T` the `current_timeout` and `lastExc` the `last_exception`
variable.  Each iteration: the recursion gate raises `RecursionError` when
`len(inspect.stack()) >= sys.getrecursionlimit() - buffer` (caught by the
`except RecursionError` arm, which sets `fallback_to_sync` and re-raises
immediately); otherwise the breaker executes the operation under the current
timeout; success returns; a `RecursionError` from the operation propagates the
same way; any other failure is recorded and, when retries remain, the loop
sleeps `backoff_factor ** current_retry` seconds, multiplies the timeout by
the backoff factor, and goes around; when none remain the last exception is
re-raised (or a generic exhaustion error when none was ever recorded). -/
def runLoop (env : ExecEnv) (op : ℕ → AttemptBehavior) (taskId : String) (bf : ℚ) :
    ℕ → ℕ → ℚ → ℚ → Option PyExc → ExecState → RunTrace
  | 0, _, _, _, lastExc, st =>
    ⟨.error (lastExc.getD (.genericExhaustion taskId)), 0, 0, [], [], [], st⟩
  | fuel + 1, k, T, now, _lastExc, st =>
    if env.recursion_limit - env.recursion_check_buffer ≤ env.stack_depth then
      ⟨.error .recursionError, 1, 0, [], [T], [.recursionError],
        { st with fallback_to_sync := true }⟩
    else
      let a := circuit_breaker_execute st.breaker now T (op k)
      let st1 : ExecState := { st with breaker := a.breaker }
      match a.res with
      | .ok v => ⟨.ok v, 1, if a.opCalled then 1 else 0, [], [T], [], st1⟩
      | .error e =>
        let st2 := st1.note_exc e
        if e = .recursionError then
          ⟨.error e, 1, if a.opCalled then 1 else 0, [], [T], [e],
            { st2 with fallback_to_sync := true }⟩
        else if 0 < fuel then
          let sleepD := bf ^ k
          let rest := runLoop env op taskId bf fuel (k + 1) (T * bf)
            (now + a.elapsed + sleepD) (some e) st2
          ⟨rest.result, 1 + rest.iterations, (if a.opCalled then 1 else 0) + rest.opCalls,
            sleepD :: rest.sleeps, T :: rest.timeouts, e :: rest.excs, rest.state⟩
        else
          let rest := runLoop env op taskId bf fuel (k + 1) T (now + a.elapsed) (some e) st2
          ⟨rest.result, 1 + rest.iterations, (if a.opCalled then 1 else 0) + rest.opCalls,
            rest.sleeps, T :: rest.timeouts, e :: rest.excs, rest.state⟩

/-- `BaseAsyncAgent._get_fallback_result`. -/
def get_fallback_result (taskId : String) : String :=
  "FALLBACK_RESULT_FOR_" ++ taskId

/-- `BaseAsyncAgent.execute_with_resilience`.  An already-created pending
computation (coroutine object or Future) is awaited exactly once under
`initial_timeout` and never enters the retry loop: its value is returned on
success and `_get_fallback_result(task_id)` is returned on any exception
(`except Exception` also catches the waiter's `TimeoutError`); the breaker and
the stats are untouched on this path.  A callable enters the retry loop with
`current_retry = 0` and `current_timeout = initial_timeout`; the loop runs
`max(0, max_retries + 1)` times. -/
def execute_with_resilience (taskId : String) (input : TaskInput) (cfg : ExecConfig)
    (env : ExecEnv) (st : ExecState) (now : ℚ) : RunTrace :=
  match input with
  | .pending beh =>
    let r : Except PyExc String :=
      if cfg.initial_timeout < beh.duration then .error .timeoutError
      else
        match beh.outcome with
        | .value v => .ok v
        | .raises e => .error e
    match r with
    | .ok v => ⟨.ok v, 0, 1, [], [], [], st⟩
    | .error _ => ⟨.ok (get_fallback_result taskId), 0, 1, [], [], [], st⟩
  | .callable op =>
    runLoop env op taskId cfg.backoff_factor (cfg.max_retries + 1).toNat 0
      cfg.initial_timeout now none st

/-- Hypothesis of the exhaustion claim: entered at retry index `k` with
current timeout `T`, the operation fails on every following iteration — it
either outlives that iteration's timeout (`T * bf ^ j` at iteration `k + j`,
since the timeout is multiplied by the backoff factor each retry) or raises
an exception other than `RecursionError` (a `RecursionError` would abort the
loop instead of consuming retries). -/
def failsFrom (op : ℕ → AttemptBehavior) (bf : ℚ) (k : ℕ) (T : ℚ) : Prop :=
  ∀ j : ℕ, T * bf ^ j < (op (k + j)).duration ∨
    ∃ e, (op (k + j)).outcome = .raises e ∧ e ≠ PyExc.recursionError

/-- Python attribute assignment `breaker.failure_count = v`: the class defines
no attribute of that name (the backing field is `_failure_count`), so the
assignment creates a fresh instance attribute and every stored field keeps its
value. -/
def CircuitBreaker.set_failure_count_attr (b : CircuitBreaker) (v : ℤ) : CircuitBreaker :=
  { b with shadow_failure_count := some v }

/-- Python attribute assignment `breaker.state = v`: `state` is a `@property`
with a getter only, a data descriptor that intercepts the assignment and
raises `AttributeError`; the instance is unchanged and the assigned value is
discarded. -/
def CircuitBreaker.set_state_attr (_b : CircuitBreaker) (_v : CircuitBreakerState) :
    Except PyExc CircuitBreaker :=
  .error .attributeError

/-- `JSXContentAnalyzer.reset_system_state`, statement by statement:
`self.circuit_breaker.failure_count = 0` (creates a shadow attribute, does not
touch `_failure_count`); `self.circuit_breaker.state = CircuitBreakerState.CLOSED`
(raises `AttributeError`, so execution stops here and the remaining
statements — clearing `fallback_to_sync` and zeroing `execution_stats` —
never run).  Returns the raised exception, if any, next to the state the
instance is left in. -/
def reset_system_state (a : ExecState) : Option PyExc × ExecState :=
  let b1 := a.breaker.set_failure_count_attr 0
  match b1.set_state_attr .closed with
  | .error e => (some e, { a with breaker := b1 })
  | .ok b2 =>
    (none, { breaker := b2, fallback_to_sync := false, execution_stats := ⟨0, 0, 0, 0, 0⟩ })

theorem CircuitBreaker.state_of_closed (b : CircuitBreaker) (now : ℚ)
    (hs : b.state_var = .closed) : b.state now = (.closed, b) := by
  simp [CircuitBreaker.state, hs]

theorem CircuitBreaker.state_of_half_open (b : CircuitBreaker) (now : ℚ)
    (hs : b.state_var = .halfOpen) : b.state now = (.halfOpen, b) := by
  simp [CircuitBreaker.state, hs]

theorem record_failure_of_closed (b : CircuitBreaker) (now : ℚ)
    (hs : b.state_var = .closed) :
    b.record_failure now =
      if b.failure_threshold ≤ b.failure_count + 1 then
        { b with
            state_var := .opened
            failure_count := b.failure_count + 1
            last_failure_time := some now }
      else
        { b with
            failure_count := b.failure_count + 1
            last_failure_time := some now } := by
  have h1 : ({ b with
      failure_count := b.failure_count + 1
      last_failure_time := some now } : CircuitBreaker).state now =
      (.closed, { b with
        failure_count := b.failure_count + 1
        last_failure_time := some now }) :=
    CircuitBreaker.state_of_closed _ now hs
  by_cases hth : b.failure_threshold ≤ b.failure_count + 1 <;>
    simp [CircuitBreaker.record_failure, h1, hth]

theorem record_failures_closed_below (times : List ℚ) :
    ∀ b : CircuitBreaker, b.state_var = .closed →
    b.failure_count + times.length < b.failure_threshold →
    (b.record_failures times).state_var = .closed ∧
    (b.record_failures times).failure_count = b.failure_count + times.length ∧
    (b.record_failures times).failure_threshold = b.failure_threshold := by
  induction times with
  | nil =>
    intro b hs _
    exact ⟨hs, by simp [CircuitBreaker.record_failures], rfl⟩
  | cons t rest ih =>
    intro b hs hlt
    simp only [List.length_cons] at hlt
    push_cast at hlt
    have hb1 := record_failure_of_closed b t hs
    rw [if_neg (by omega)] at hb1
    have hstep := ih (b.record_failure t)
      (by rw [hb1]; exact hs)
      (by
        rw [hb1]
        show b.failure_count + 1 + (rest.length : ℤ) < b.failure_threshold
        omega)
    simp only [CircuitBreaker.record_failures, List.foldl_cons] at hstep ⊢
    refine ⟨hstep.1, ?_, ?_⟩
    · rw [hstep.2.1, hb1]
      show b.failure_count + 1 + (rest.length : ℤ) = b.failure_count + ((t :: rest).length : ℤ)
      push_cast [List.length_cons]
      ring
    · rw [hstep.2.2, hb1]

theorem record_failures_opens (times : List ℚ) :
    ∀ b : CircuitBreaker, b.state_var = .closed →
    b.failure_count + times.length = b.failure_threshold →
    times ≠ [] →
    (b.record_failures times).state_var = .opened := by
  induction times with
  | nil => intro b _ _ hne; exact absurd rfl hne
  | cons t rest ih =>
    intro b hs heq _
    simp only [List.length_cons] at heq
    push_cast at heq
    by_cases hrest : rest = []
    · subst hrest
      simp only [List.length_nil, Nat.cast_zero, zero_add] at heq
      have hb1 := record_failure_of_closed b t hs
      rw [if_pos (by omega)] at hb1
      simp only [CircuitBreaker.record_failures, List.foldl_cons, List.foldl_nil]
      rw [hb1]
    · have hlen : 0 < (rest.length : ℤ) := by
        have : rest.length ≠ 0 := fun h => hrest (List.length_eq_zero.mp h)
        omega
      have hb1 := record_failure_of_closed b t hs
      rw [if_neg (by omega)] at hb1
      have hstep := ih (b.record_failure t)
        (by rw [hb1]; exact hs)
        (by
          rw [hb1]
          show b.failure_count + 1 + (rest.length : ℤ) = b.failure_threshold
          omega)
        hrest
      simpa only [CircuitBreaker.record_failures, List.foldl_cons] using hstep

/-- C3: from a breaker in CLOSED with zero failure count, any strictly smaller
number of consecutive `record_failure` calls than `failure_threshold` leaves
the stored state CLOSED, and exactly `failure_threshold` consecutive calls
leave it OPEN (the wall-clock reading of each call is arbitrary). -/
theorem circuit_breaker_opens_exactly_at_threshold (b : CircuitBreaker) (times : List ℚ)
    (hs : b.state_var = .closed) (hc : b.failure_count = 0)
    (hpos : 0 < b.failure_threshold) :
    ((times.length : ℤ) < b.failure_threshold →
        (b.record_failures times).state_var = .closed) ∧
    ((times.length : ℤ) = b.failure_threshold →
        (b.record_failures times).state_var = .opened) := by
  constructor
  · intro hlt
    exact (record_failures_closed_below times b hs (by omega)).1
  · intro heq
    have hne : times ≠ [] := by
      intro h; subst h; simp only [List.length_nil, Nat.cast_zero] at heq; omega
    exact record_failures_opens times b hs (by omega) hne

/-- Witness for C3 at a concrete breaker: threshold 2, two recorded failures
open the breaker, one does not. -/
theorem circuit_breaker_opens_exactly_at_threshold_witness :
    ((CircuitBreaker.init 2 90 2).record_failures [1]).state_var = .closed ∧
    ((CircuitBreaker.init 2 90 2).record_failures [1, 5]).state_var = .opened :=
  ⟨(circuit_breaker_opens_exactly_at_threshold (CircuitBreaker.init 2 90 2) [1]
      rfl rfl (by decide)).1 (by decide),
   (circuit_breaker_opens_exactly_at_threshold (CircuitBreaker.init 2 90 2) [1, 5]
      rfl rfl (by decide)).2 (by decide)⟩

/-- C4: for a breaker stored OPEN whose last failure was recorded at a positive
monotonic-clock reading `t` (every reachable OPEN breaker has
`_last_failure_time = time.monotonic() > 0`): while `now - t` has not exceeded
`recovery_timeout`, a read of the `state` property returns OPEN and leaves the
breaker completely unchanged; as soon as `now - t` exceeds `recovery_timeout`,
the very next read returns HALF_OPEN and itself performs the transition
(stored state becomes HALF_OPEN, `_success_count` is zeroed, every other field
is untouched) — no external trigger is modelled or needed. -/
theorem open_breaker_lazy_half_open_transition (b : CircuitBreaker) (now t : ℚ)
    (hs : b.state_var = .opened) (hl : b.last_failure_time = some t) (ht : 0 < t) :
    (now - t ≤ b.recovery_timeout → b.state now = (.opened, b)) ∧
    (b.recovery_timeout < now - t →
        b.state now = (.halfOpen, { b with state_var := .halfOpen, success_count := 0 })) := by
  constructor
  · intro hle
    have hcond : ¬(t ≠ 0 ∧ b.recovery_timeout < now - t) := by
      rintro ⟨-, h2⟩; exact absurd hle (not_le.mpr h2)
    simp only [CircuitBreaker.state, hs, hl]
    rw [if_neg hcond]
    simp
  · intro hgt
    have hcond : t ≠ 0 ∧ b.recovery_timeout < now - t := ⟨ne_of_gt ht, hgt⟩
    simp only [CircuitBreaker.state, hs, hl]
    rw [if_pos hcond]
    simp

/-- Witness for C4 at a concrete OPEN breaker (recovery timeout 10, failure at
t = 3): a read at now = 12 still reports OPEN and changes nothing, a read at
now = 14 reports HALF_OPEN and performs the transition. -/
theorem open_breaker_lazy_half_open_transition_witness :
    (CircuitBreaker.mk 5 10 2 .opened 5 1 (some 3) none).state 12 =
      (.opened, CircuitBreaker.mk 5 10 2 .opened 5 1 (some 3) none) ∧
    (CircuitBreaker.mk 5 10 2 .opened 5 1 (some 3) none).state 14 =
      (.halfOpen, CircuitBreaker.mk 5 10 2 .halfOpen 5 0 (some 3) none) :=
  ⟨(open_breaker_lazy_half_open_transition
      (CircuitBreaker.mk 5 10 2 .opened 5 1 (some 3) none) 12 3 rfl rfl (by norm_num)).1
      (by norm_num),
   (open_breaker_lazy_half_open_transition
      (CircuitBreaker.mk 5 10 2 .opened 5 1 (some 3) none) 14 3 rfl rfl (by norm_num)).2
      (by norm_num)⟩

/-- C5: from a breaker stored HALF_OPEN, a single `record_failure` (at any
wall-clock reading, whatever the accumulated success count) yields stored
state OPEN with `_failure_count` pinned to `failure_threshold`. -/
theorem half_open_single_failure_reopens (b : CircuitBreaker) (now : ℚ)
    (hs : b.state_var = .halfOpen) :
    (b.record_failure now).state_var = .opened ∧
    (b.record_failure now).failure_count = b.failure_threshold := by
  have h1 : ({ b with
      failure_count := b.failure_count + 1
      last_failure_time := some now } : CircuitBreaker).state now =
      (.halfOpen, { b with
        failure_count := b.failure_count + 1
        last_failure_time := some now }) :=
    CircuitBreaker.state_of_half_open _ now hs
  simp [CircuitBreaker.record_failure, h1]

/-- Witness for C5 at a concrete HALF_OPEN breaker with one recorded probe
success: one failure reopens it and pins the failure count to the threshold. -/
theorem half_open_single_failure_reopens_witness :
    ((CircuitBreaker.mk 12 90 2 .halfOpen 3 1 (some 7) none).record_failure 100).state_var
        = .opened ∧
    ((CircuitBreaker.mk 12 90 2 .halfOpen 3 1 (some 7) none).record_failure 100).failure_count
        = 12 :=
  half_open_single_failure_reopens
    (CircuitBreaker.mk 12 90 2 .halfOpen 3 1 (some 7) none) 100 rfl

theorem dict_get_set_self (rs : List (String × ResultEntry)) (k : String) (v : ResultEntry) :
    dict_get (dict_set rs k v) k = some v := by
  induction rs with
  | nil => simp [dict_set, dict_get]
  | cons p rest ih =>
    by_cases h : p.1 = k <;> simp [dict_set, dict_get, h, ih]

theorem dict_get_set_ne (rs : List (String × ResultEntry)) (k : String) (v : ResultEntry)
    (k' : String) (h : k' ≠ k) :
    dict_get (dict_set rs k v) k' = dict_get rs k' := by
  induction rs with
  | nil => simp [dict_set, dict_get, Ne.symm h]
  | cons p rest ih =>
    by_cases hp : p.1 = k
    · simp [dict_set, dict_get, hp, Ne.symm h]
    · by_cases hp' : p.1 = k' <;> simp [dict_set, dict_get, hp, hp', h, Ne.symm h, ih]

theorem run_item_status_cases (item : WorkItem) :
    (run_item item).status = .success ∨ (run_item item).status = .timeout ∨
    (run_item item).status = .error := by
  unfold run_item
  by_cases h : item.timeout < item.duration
  · simp [h]
  · rcases item.outcome with v | e | inner
    · simp [h]
    · simp [h]
    · rcases inner with ⟨d, v⟩ | ⟨d, e⟩ <;>
        · by_cases hd : item.timeout < d <;> simp [h, hd]

/-- C9: a worker finishing a work item writes exactly one result-table entry,
keyed by the item's id (all other keys read unchanged), and the entry's tag
matches the outcome: a callable that settles to a value within the item's own
timeout gives `status = success` with the value; an attempt outliving the
item's timeout gives `status = timeout` with a message; a callable that raises
gives `status = error` with the stringified exception; the tag is always one
of success/timeout/error, and `run_item` being a total function reflects that
no per-item exception escapes the worker loop. -/
theorem worker_stores_one_tagged_result (rs : List (String × ResultEntry)) (item : WorkItem) :
    dict_get (worker_process_item rs item) item.id = some (run_item item) ∧
    (∀ k, k ≠ item.id → dict_get (worker_process_item rs item) k = dict_get rs k) ∧
    (∀ v, item.outcome = .value v → item.duration ≤ item.timeout →
        run_item item = ⟨.success, some v, none⟩) ∧
    (item.timeout < item.duration →
        run_item item = ⟨.timeout, none, some ("Task " ++ item.id ++ " timed out")⟩) ∧
    (∀ e, item.outcome = .raises e → item.duration ≤ item.timeout →
        run_item item = ⟨.error, none, some e⟩) ∧
    ((run_item item).status = .success ∨ (run_item item).status = .timeout ∨
        (run_item item).status = .error) := by
  refine ⟨dict_get_set_self rs item.id (run_item item),
    fun k hk => dict_get_set_ne rs item.id (run_item item) k hk,
    ?_, ?_, ?_, run_item_status_cases item⟩
  · intro v hv hd
    simp [run_item, hv, not_lt.mpr hd]
  · intro hlt
    simp [run_item, hlt]
  · intro e he hd
    simp [run_item, he, not_lt.mpr hd]

/-- C1 evaluated at the failing input: a bounded queue with `max_queue_size = 1`
already holding one item.  `enqueue_work` does not return `False`: the awaited
`queue.put` suspends the caller (the `except asyncio.QueueFull` handler is
dead code since only `put_nowait` raises `QueueFull`), so the call blocks with
the stored contents unchanged instead of returning false without blocking. -/
theorem enqueue_at_capacity_blocks_caller :
    enqueue_work
      ⟨[⟨"queued", 0, 3, 0, 300, 0, 1, .value "r"⟩], 1, true, []⟩
      ⟨"rejected", 5, 3, 0, 300, 0, 1, .value "s"⟩ =
    .blocked ⟨[⟨"queued", 0, 3, 0, 300, 0, 1, .value "r"⟩], 1, true, []⟩ := rfl

/-- C2 evaluated at the failing input: any executor instance (here one with an
OPEN breaker, 5 recorded failures, `fallback_to_sync = True` and nonzero
stats).  `reset_system_state` raises `AttributeError` on its second statement
(`state` is a getter-only property), so it does not return normally; the
breaker's `_failure_count` and `_state`, the sync-mode flag and every
execution counter are left untouched (only the spurious shadow attribute
`failure_count` is created). -/
theorem reset_system_state_raises_attribute_error :
    reset_system_state
      ⟨⟨8, 30, 2, .opened, 5, 0, some 40, none⟩, true, ⟨7, 3, 1, 2, 4⟩⟩ =
    (some .attributeError,
      ⟨⟨8, 30, 2, .opened, 5, 0, some 40, some 0⟩, true, ⟨7, 3, 1, 2, 4⟩⟩) := rfl

/-- C10: an already-created pending computation (coroutine object or Future)
handed to `execute_with_resilience` is awaited exactly once under the initial
timeout and bypasses the retry loop and the circuit breaker entirely: zero
loop iterations, no backoff sleep, agent state (breaker and counters)
unchanged; its value is returned when it settles within `initial_timeout`, and
on any exception — including the waiter's timeout — the deterministic fallback
placeholder `_get_fallback_result(task_id)` is returned instead of raising. -/
theorem pending_input_short_circuits (taskId : String) (beh : AttemptBehavior)
    (cfg : ExecConfig) (env : ExecEnv) (st : ExecState) (now : ℚ) :
    (execute_with_resilience taskId (.pending beh) cfg env st now).iterations = 0 ∧
    (execute_with_resilience taskId (.pending beh) cfg env st now).opCalls = 1 ∧
    (execute_with_resilience taskId (.pending beh) cfg env st now).sleeps = [] ∧
    (execute_with_resilience taskId (.pending beh) cfg env st now).state = st ∧
    (∀ v, beh.outcome = .value v → beh.duration ≤ cfg.initial_timeout →
        (execute_with_resilience taskId (.pending beh) cfg env st now).result = .ok v) ∧
    (cfg.initial_timeout < beh.duration →
        (execute_with_resilience taskId (.pending beh) cfg env st now).result =
          .ok (get_fallback_result taskId)) ∧
    (∀ e, beh.outcome = .raises e →
        (execute_with_resilience taskId (.pending beh) cfg env st now).result =
          .ok (get_fallback_result taskId)) := by
  by_cases hT : cfg.initial_timeout < beh.duration
  · simp [execute_with_resilience, hT, not_le.mpr hT]
  · rcases houtcome : beh.outcome with v | e <;>
      simp [execute_with_resilience, hT, houtcome]

/-- C8: (gate part) whenever the measured stack depth is at or beyond
`recursion_limit - buffer` at the start of an attempt, the `RecursionError` is
raised and propagated immediately: the operation is never invoked, no backoff
sleep happens, only one loop iteration runs, the sync-mode flag is set, and
the breaker and counters are untouched.  (operation part) when the operation
itself raises `RecursionError` within its budget on the first attempt, the
error likewise propagates immediately with the flag set, after a single
invocation and with no sleep. -/
theorem recursion_gate_aborts_immediately (taskId : String) (op : ℕ → AttemptBehavior)
    (cfg : ExecConfig) (env : ExecEnv) (st : ExecState) (now : ℚ)
    (hmr : 0 ≤ cfg.max_retries)
    (hdepth : env.recursion_limit - env.recursion_check_buffer ≤ env.stack_depth) :
    (execute_with_resilience taskId (.callable op) cfg env st now).result =
        .error .recursionError ∧
    (execute_with_resilience taskId (.callable op) cfg env st now).opCalls = 0 ∧
    (execute_with_resilience taskId (.callable op) cfg env st now).sleeps = [] ∧
    (execute_with_resilience taskId (.callable op) cfg env st now).iterations = 1 ∧
    (execute_with_resilience taskId (.callable op) cfg env st now).state.fallback_to_sync
        = true ∧
    (execute_with_resilience taskId (.callable op) cfg env st now).state.breaker
        = st.breaker ∧
    (execute_with_resilience taskId (.callable op) cfg env st now).state.execution_stats
        = st.execution_stats ∧
    (∀ env' : ExecEnv,
      env'.stack_depth < env'.recursion_limit - env'.recursion_check_buffer →
      (st.breaker.state now).1 ≠ .opened →
      (op 0).duration ≤ cfg.initial_timeout →
      (op 0).outcome = .raises .recursionError →
      (execute_with_resilience taskId (.callable op) cfg env' st now).result =
          .error .recursionError ∧
      (execute_with_resilience taskId (.callable op) cfg env' st now).opCalls = 1 ∧
      (execute_with_resilience taskId (.callable op) cfg env' st now).sleeps = [] ∧
      (execute_with_resilience taskId (.callable op) cfg env' st now).iterations = 1 ∧
      (execute_with_resilience taskId (.callable op) cfg env' st now).state.fallback_to_sync
          = true) := by
  obtain ⟨m, hm⟩ : ∃ m, (cfg.max_retries + 1).toNat = m + 1 :=
    ⟨(cfg.max_retries + 1).toNat - 1, by omega⟩
  constructor
  · simp only [execute_with_resilience, hm, runLoop]
    rw [if_pos hdepth]
  refine ⟨?_, ?_, ?_, ?_, ?_, ?_, ?_⟩
  · simp only [execute_with_resilience, hm, runLoop]; rw [if_pos hdepth]
  · simp only [execute_with_resilience, hm, runLoop]; rw [if_pos hdepth]
  · simp only [execute_with_resilience, hm, runLoop]; rw [if_pos hdepth]
  · simp only [execute_with_resilience, hm, runLoop]; rw [if_pos hdepth]
  · simp only [execute_with_resilience, hm, runLoop]; rw [if_pos hdepth]
  · simp only [execute_with_resilience, hm, runLoop]; rw [if_pos hdepth]
  · intro env' h1 h2 h3 h4
    have ha : circuit_breaker_execute st.breaker now cfg.initial_timeout (op 0) =
        ⟨.error .recursionError,
          (st.breaker.state now).2.record_failure (now + (op 0).duration), true,
          (op 0).duration⟩ := by
      simp only [circuit_breaker_execute]
      rw [if_neg h2, if_neg (not_lt.mpr h3), h4]
    simp only [execute_with_resilience, hm, runLoop]
    rw [if_neg (not_le.mpr h1)]
    simp only [ha]
    simp

/-- Witness for C8: a concrete configuration (max_retries 2, depth 960 at
limit 1000 with buffer 50) exercising the gate part, and a concrete
environment (depth 10) with an operation raising `RecursionError` exercising
the operation part. -/
theorem recursion_gate_aborts_immediately_witness :
    ((execute_with_resilience "t8" (.callable fun _ => ⟨1, .raises .recursionError⟩)
        ⟨2, 180, 2⟩ ⟨960, 1000, 50⟩
        ⟨CircuitBreaker.init 12 90 2, false, ⟨0, 0, 0, 0, 0⟩⟩ 0).result =
      .error .recursionError ∧
     (execute_with_resilience "t8" (.callable fun _ => ⟨1, .raises .recursionError⟩)
        ⟨2, 180, 2⟩ ⟨960, 1000, 50⟩
        ⟨CircuitBreaker.init 12 90 2, false, ⟨0, 0, 0, 0, 0⟩⟩ 0).opCalls = 0) ∧
    ((execute_with_resilience "t8" (.callable fun _ => ⟨1, .raises .recursionError⟩)
        ⟨2, 180, 2⟩ ⟨10, 1000, 50⟩
        ⟨CircuitBreaker.init 12 90 2, false, ⟨0, 0, 0, 0, 0⟩⟩ 0).result =
      .error .recursionError ∧
     (execute_with_resilience "t8" (.callable fun _ => ⟨1, .raises .recursionError⟩)
        ⟨2, 180, 2⟩ ⟨10, 1000, 50⟩
        ⟨CircuitBreaker.init 12 90 2, false, ⟨0, 0, 0, 0, 0⟩⟩ 0).iterations = 1) := by
  have h := recursion_gate_aborts_immediately "t8"
    (fun _ => ⟨1, .raises .recursionError⟩) ⟨2, 180, 2⟩ ⟨960, 1000, 50⟩
    ⟨CircuitBreaker.init 12 90 2, false, ⟨0, 0, 0, 0, 0⟩⟩ 0
    (by decide) (by decide)
  have h2 := h.2.2.2.2.2.2.2 ⟨10, 1000, 50⟩ (by decide)
    (by decide) (by norm_num) rfl
  exact ⟨⟨h.1, h.2.1⟩, h2.1, h2.2.2.2.1⟩

theorem runLoop_iterations_pos (env : ExecEnv) (op : ℕ → AttemptBehavior) (taskId : String)
    (bf : ℚ) (fuel k : ℕ) (T now : ℚ) (lastExc : Option PyExc) (st : ExecState)
    (h : 0 < fuel) :
    0 < (runLoop env op taskId bf fuel k T now lastExc st).iterations := by
  cases fuel with
  | zero => omega
  | succ n =>
    simp only [runLoop]
    split
    · dsimp only; omega
    · split
      · dsimp only; omega
      · split
        · dsimp only; omega
        · split
          · dsimp only; omega
          · dsimp only; omega

theorem schedule_step (bf T : ℚ) (k : ℕ) (rest : RunTrace)
    (hT : rest.timeouts = (List.range rest.iterations).map (fun j => T * bf * bf ^ j))
    (hS : rest.sleeps = (List.range (rest.iterations - 1)).map (fun j => bf ^ (k + 1 + j)))
    (hpos : 0 < rest.iterations) :
    T :: rest.timeouts = (List.range (1 + rest.iterations)).map (fun j => T * bf ^ j) ∧
    bf ^ k :: rest.sleeps =
      (List.range (1 + rest.iterations - 1)).map (fun j => bf ^ (k + j)) := by
  obtain ⟨m, hm⟩ : ∃ m, rest.iterations = m + 1 := ⟨rest.iterations - 1, by omega⟩
  constructor
  · rw [hT, Nat.add_comm 1 rest.iterations, List.range_succ_eq_map, List.map_cons,
      List.map_map]
    have hfun : ((fun j => T * bf ^ j) ∘ Nat.succ) = fun j => T * bf * bf ^ j := by
      funext j
      simp only [Function.comp_apply, Nat.succ_eq_add_one]
      ring
    rw [hfun]
    simp
  · rw [hS, hm]
    rw [show m + 1 - 1 = m from by omega, show 1 + (m + 1) - 1 = m + 1 from by omega]
    rw [List.range_succ_eq_map, List.map_cons, List.map_map]
    have hfun : ((fun j => bf ^ (k + j)) ∘ Nat.succ) = fun j => bf ^ (k + 1 + j) := by
      funext j
      simp only [Function.comp_apply, Nat.succ_eq_add_one]
      congr 1
      omega
    rw [hfun]
    simp

theorem runLoop_backoff_schedule (env : ExecEnv) (op : ℕ → AttemptBehavior) (taskId : String)
    (bf : ℚ) :
    ∀ (fuel k : ℕ) (T now : ℚ) (lastExc : Option PyExc) (st : ExecState),
    (runLoop env op taskId bf fuel k T now lastExc st).timeouts =
      (List.range (runLoop env op taskId bf fuel k T now lastExc st).iterations).map
        (fun j => T * bf ^ j) ∧
    (runLoop env op taskId bf fuel k T now lastExc st).sleeps =
      (List.range ((runLoop env op taskId bf fuel k T now lastExc st).iterations - 1)).map
        (fun j => bf ^ (k + j)) := by
  intro fuel
  induction fuel with
  | zero =>
    intro k T now lastExc st
    simp [runLoop]
  | succ n ih =>
    intro k T now lastExc st
    simp only [runLoop]
    split
    · simp [List.range_succ]
    · split
      · simp [List.range_succ]
      · split
        · simp [List.range_succ]
        · split
          · rename_i hfuel
            dsimp only
            refine schedule_step bf T k _ ?_ ?_ ?_
            · exact (ih (k + 1) (T * bf) _ _ _).1
            · exact (ih (k + 1) (T * bf) _ _ _).2
            · exact runLoop_iterations_pos env op taskId bf n (k + 1) (T * bf) _ _ _ hfuel
          · rename_i hfuel
            have hn : n = 0 := by omega
            subst hn
            simp [runLoop, List.range_succ]

/-- C7: the backoff/timeout schedule of the retry loop, for every input and
configuration: attempt `k` (1-indexed) runs under per-attempt timeout
`initial_timeout * backoff_factor ^ (k - 1)`, and after the failure of attempt
`k` that is followed by another attempt the executor sleeps exactly
`backoff_factor ^ (k - 1)` seconds; there are `iterations - 1` sleeps, so no
sleep and no timeout growth happens after the final attempt. -/
theorem retry_backoff_and_timeout_schedule (taskId : String) (op : ℕ → AttemptBehavior)
    (cfg : ExecConfig) (env : ExecEnv) (st : ExecState) (now : ℚ) :
    (execute_with_resilience taskId (.callable op) cfg env st now).timeouts =
      (List.range (execute_with_resilience taskId (.callable op) cfg env st now).iterations).map
        (fun j => cfg.initial_timeout * cfg.backoff_factor ^ j) ∧
    (execute_with_resilience taskId (.callable op) cfg env st now).sleeps =
      (List.range
          ((execute_with_resilience taskId (.callable op) cfg env st now).iterations - 1)).map
        (fun j => cfg.backoff_factor ^ j) := by
  have h := runLoop_backoff_schedule env op taskId cfg.backoff_factor
    (cfg.max_retries + 1).toNat 0 cfg.initial_timeout now none st
  simpa [execute_with_resilience] using h

theorem getLast?_cons_of_ne_nil {α : Type} (a : α) (l : List α) (h : l ≠ []) :
    (a :: l).getLast? = l.getLast? := by
  cases l with
  | nil => exact absurd rfl h
  | cons b t => exact List.getLast?_cons_cons

theorem circuit_breaker_execute_fails (b : CircuitBreaker) (now T : ℚ)
    (beh : AttemptBehavior)
    (h : T < beh.duration ∨ ∃ e, beh.outcome = .raises e ∧ e ≠ PyExc.recursionError) :
    ∃ e, (circuit_breaker_execute b now T beh).res = .error e ∧
      e ≠ PyExc.recursionError := by
  simp only [circuit_breaker_execute]
  by_cases hopen : (b.state now).1 = .opened
  · exact ⟨.cbOpenError, by rw [if_pos hopen], by decide⟩
  · by_cases hdur : T < beh.duration
    · exact ⟨.timeoutError, by rw [if_neg hopen, if_pos hdur], by decide⟩
    · rcases h with h | ⟨e, he, hne⟩
      · exact absurd h hdur
      · exact ⟨e, by rw [if_neg hopen, if_neg hdur, he], hne⟩

theorem runLoop_exhausts (env : ExecEnv) (op : ℕ → AttemptBehavior) (taskId : String)
    (bf : ℚ)
    (hdepth : env.stack_depth < env.recursion_limit - env.recursion_check_buffer) :
    ∀ (fuel k : ℕ) (T now : ℚ) (lastExc : Option PyExc) (st : ExecState),
    failsFrom op bf k T →
    (runLoop env op taskId bf fuel k T now lastExc st).iterations = fuel ∧
    (0 < fuel → ∃ e, (runLoop env op taskId bf fuel k T now lastExc st).excs.getLast? =
        some e ∧
      (runLoop env op taskId bf fuel k T now lastExc st).result = .error e) ∧
    (fuel = 0 → (runLoop env op taskId bf fuel k T now lastExc st).result =
        .error (lastExc.getD (.genericExhaustion taskId))) := by
  intro fuel
  induction fuel with
  | zero =>
    intro k T now lastExc st _
    refine ⟨rfl, by omega, fun _ => rfl⟩
  | succ n ih =>
    intro k T now lastExc st hfails
    have h0 := hfails 0
    rw [pow_zero, mul_one, Nat.add_zero] at h0
    obtain ⟨e, he, hne⟩ := circuit_breaker_execute_fails st.breaker now T (op k) h0
    have hshift : failsFrom op bf (k + 1) (T * bf) := by
      intro j
      have hj := hfails (j + 1)
      rw [show k + (j + 1) = k + 1 + j from by omega] at hj
      rcases hj with hj | hj
      · left
        calc T * bf * bf ^ j = T * bf ^ (j + 1) := by ring
        _ < _ := hj
      · right; exact hj
    simp only [runLoop]
    rw [if_neg (not_le.mpr hdepth)]
    rw [he]
    dsimp only
    rw [if_neg hne]
    by_cases hn : 0 < n
    · rw [if_pos hn]
      dsimp only
      obtain ⟨ih1, ih2, _⟩ := ih (k + 1) (T * bf)
        (now + (circuit_breaker_execute st.breaker now T (op k)).elapsed + bf ^ k)
        (some e)
        (ExecState.note_exc
          { st with breaker := (circuit_breaker_execute st.breaker now T (op k)).breaker } e)
        hshift
      obtain ⟨e', hlast, hres⟩ := ih2 hn
      have hnil : (runLoop env op taskId bf n (k + 1) (T * bf)
          (now + (circuit_breaker_execute st.breaker now T (op k)).elapsed + bf ^ k)
          (some e)
          (ExecState.note_exc
            { st with
                breaker := (circuit_breaker_execute st.breaker now T (op k)).breaker }
            e)).excs ≠ [] := by
        intro hemp
        rw [hemp] at hlast
        exact Option.noConfusion hlast
      refine ⟨by rw [ih1]; omega, fun _ => ⟨e', ?_, hres⟩, fun hcon => by omega⟩
      rw [getLast?_cons_of_ne_nil e _ hnil]
      exact hlast
    · have hzero : n = 0 := by omega
      subst hzero
      rw [if_neg hn]
      simp [runLoop]

/-- C6: an operation that fails on every attempt (by timing out or raising a
non-recursion exception), run with `max_retries = 2`, is attempted exactly 3
times (1 initial + 2 retries) and then raises, re-raising the exception
observed on the last attempt; additionally, whenever the loop runs zero
iterations (a negative retry budget — the only way no exception is ever
recorded), the generic exhaustion error carrying the task id is raised
instead. -/
theorem exhaustion_after_three_attempts (taskId : String) (op : ℕ → AttemptBehavior)
    (cfg : ExecConfig) (env : ExecEnv) (st : ExecState) (now : ℚ)
    (hmr : cfg.max_retries = 2)
    (hdepth : env.stack_depth < env.recursion_limit - env.recursion_check_buffer)
    (hfails : failsFrom op cfg.backoff_factor 0 cfg.initial_timeout) :
    (execute_with_resilience taskId (.callable op) cfg env st now).iterations = 3 ∧
    (∃ e, (execute_with_resilience taskId (.callable op) cfg env st now).excs.getLast? =
        some e ∧
      (execute_with_resilience taskId (.callable op) cfg env st now).result = .error e) ∧
    (∀ cfg' : ExecConfig, cfg'.max_retries < 0 →
      (execute_with_resilience taskId (.callable op) cfg' env st now).result =
        .error (.genericExhaustion taskId)) := by
  have hfuel : (cfg.max_retries + 1).toNat = 3 := by omega
  obtain ⟨h1, h2, _⟩ := runLoop_exhausts env op taskId cfg.backoff_factor hdepth
    (cfg.max_retries + 1).toNat 0 cfg.initial_timeout now none st hfails
  rw [hfuel] at h1 h2
  refine ⟨?_, ?_, ?_⟩
  · simpa [execute_with_resilience, hfuel] using h1
  · simpa [execute_with_resilience, hfuel] using h2 (by omega)
  · intro cfg' hneg
    have hfuel' : (cfg'.max_retries + 1).toNat = 0 := by omega
    simp [execute_with_resilience, hfuel', runLoop]

/-- Witness for C6: a concrete operation raising a plain error on every
attempt, with max_retries = 2: exactly 3 attempts, and the raised exception is
the last observed one. -/
theorem exhaustion_after_three_attempts_witness :
    (execute_with_resilience "t6"
        (.callable fun _ => ⟨0, .raises (.otherError "boom")⟩) ⟨2, 180, 3 / 2⟩
        ⟨10, 1000, 50⟩ ⟨CircuitBreaker.init 12 90 2, false, ⟨0, 0, 0, 0, 0⟩⟩ 0).iterations
      = 3 ∧
    (∃ e, (execute_with_resilience "t6"
        (.callable fun _ => ⟨0, .raises (.otherError "boom")⟩) ⟨2, 180, 3 / 2⟩
        ⟨10, 1000, 50⟩
        ⟨CircuitBreaker.init 12 90 2, false, ⟨0, 0, 0, 0, 0⟩⟩ 0).excs.getLast? = some e ∧
      (execute_with_resilience "t6"
        (.callable fun _ => ⟨0, .raises (.otherError "boom")⟩) ⟨2, 180, 3 / 2⟩
        ⟨10, 1000, 50⟩
        ⟨CircuitBreaker.init 12 90 2, false, ⟨0, 0, 0, 0, 0⟩⟩ 0).result = .error e) ∧
    (∀ cfg' : ExecConfig, cfg'.max_retries < 0 →
      (execute_with_resilience "t6"
        (.callable fun _ => ⟨0, .raises (.otherError "boom")⟩) cfg'
        ⟨10, 1000, 50⟩
        ⟨CircuitBreaker.init 12 90 2, false, ⟨0, 0, 0, 0, 0⟩⟩ 0).result =
          .error (.genericExhaustion "t6")) :=
  exhaustion_after_three_attempts "t6" (fun _ => ⟨0, .raises (.otherError "boom")⟩)
    ⟨2, 180, 3 / 2⟩ ⟨10, 1000, 50⟩ ⟨CircuitBreaker.init 12 90 2, false, ⟨0, 0, 0, 0, 0⟩⟩ 0
    rfl (by decide) (fun j => Or.inr ⟨.otherError "boom", rfl, by decide⟩)

end EssayAgents
